import Mathlib

/-!
Verification of the trezorlib Stellar client (`trezorlib/stellar.py`).

The development shallowly embeds the two functions the specification talks
about:

* `from_envelope` / `_read_operation` / `_read_asset` / `_read_amount` /
  `_read_price`: the converter from the external Stellar SDK transaction
  representation into the protobuf header (`StellarSignTx`) plus the list of
  per-operation protobuf messages.

* `sign_tx`: the multi-step signing exchange.  The device (`client.call`) is
  modelled as an oracle `device : Nat → Except ε (Response σ)` giving the
  response to the i-th call (call 0 answers the header, call i ≥ 1 answers the
  (i-1)-th operation); a call that raises a transport-level exception is an
  `.error` answer.  The run records, besides the Python return value, the
  final header object, the remaining (mutated) operations list, the exact
  sequence of messages handed to the transport, and the number of
  send/receive exchanges performed.

Python exceptions are modelled with `Except`: `exceptions.TrezorException`
carries its message string, any other exception escaping `client.call` is a
transport error and is carried verbatim.
-/

/-! ## Constants from the source -/

def MEMO_TYPE_NONE : Nat := 0
def MEMO_TYPE_TEXT : Nat := 1
def MEMO_TYPE_ID : Nat := 2
def MEMO_TYPE_HASH : Nat := 3
def MEMO_TYPE_RETURN : Nat := 4

def ASSET_TYPE_NATIVE : Nat := 0
def ASSET_TYPE_ALPHA4 : Nat := 1
def ASSET_TYPE_ALPHA12 : Nat := 2

def DEFAULT_BIP32_PATH : String := "m/44h/148h/0h"

def DEFAULT_NETWORK_PASSPHRASE : String :=
  "Public Global Stellar Network ; September 2015"

/-- Values of the XDR enum `SignerKeyType` used by `_read_operation`. -/
def SIGNER_KEY_TYPE_ED25519 : Nat := 0
def SIGNER_KEY_TYPE_PRE_AUTH_TX : Nat := 1
def SIGNER_KEY_TYPE_HASH_X : Nat := 2

/-- Values of the SDK enum `TrustLineEntryFlag` used by `_read_operation`. -/
def UNAUTHORIZED_FLAG : Nat := 0
def AUTHORIZED_FLAG : Nat := 1

/-! ## Protobuf message objects built by the converter -/

/-- `messages.StellarAssetType`: protobuf fields default to `None`. -/
structure StellarAssetType where
  type : Nat
  code : Option String
  issuer : Option String
deriving DecidableEq

/-- `messages.StellarSetOptionsOp`; the three signer fields stay `None`
unless `op.signer` is present. -/
structure StellarSetOptionsOp where
  source_account : Option String
  inflation_destination_account : Option String
  clear_flags : Option Nat
  set_flags : Option Nat
  master_weight : Option Nat
  low_threshold : Option Nat
  medium_threshold : Option Nat
  high_threshold : Option Nat
  home_domain : Option String
  signer_type : Option Nat
  signer_key : Option (List Nat)
  signer_weight : Option Nat
deriving DecidableEq

/-- The protobuf operation messages `_read_operation` can return, one
constructor per `messages.Stellar*Op` class it instantiates. -/
inductive StellarOp where
  | createAccountOp (source_account : Option String) (new_account : String)
      (starting_balance : Int)
  | paymentOp (source_account : Option String) (destination_account : String)
      (asset : StellarAssetType) (amount : Int)
  | pathPaymentOp (source_account : Option String) (send_asset : StellarAssetType)
      (send_max : Int) (destination_account : String)
      (destination_asset : StellarAssetType) (destination_amount : Int)
      (paths : List StellarAssetType)
  | manageOfferOp (source_account : Option String) (selling_asset : StellarAssetType)
      (buying_asset : StellarAssetType) (amount : Int) (price_n : Int)
      (price_d : Int) (offer_id : Int)
  | createPassiveOfferOp (source_account : Option String)
      (selling_asset : StellarAssetType) (buying_asset : StellarAssetType)
      (amount : Int) (price_n : Int) (price_d : Int)
  | setOptionsOp (op : StellarSetOptionsOp)
  | changeTrustOp (source_account : Option String) (asset : StellarAssetType)
      (limit : Int)
  | allowTrustOp (source_account : Option String) (trusted_account : String)
      (asset_type : Nat) (asset_code : String) (is_authorized : Nat)
  | accountMergeOp (source_account : Option String) (destination_account : String)
  | manageDataOp (source_account : Option String) (key : String)
      (value : Option (List Nat))
  | bumpSequenceOp (source_account : Option String) (bump_to : Int)
deriving DecidableEq

/-- `messages.StellarSignTx`: the transaction header.  Protobuf scalar fields
default to `None`, the repeated field `address_n` to the empty list. -/
structure StellarSignTx where
  address_n : List Nat
  network_passphrase : Option String
  source_account : Option String
  fee : Option Nat
  sequence_number : Option Int
  timebounds_start : Option Nat
  timebounds_end : Option Nat
  memo_type : Option Nat
  memo_text : Option String
  memo_id : Option Nat
  memo_hash : Option (List Nat)
  num_operations : Option Nat
deriving DecidableEq

/-- The header object `messages.StellarSignTx()` as freshly constructed by
`from_envelope` — every field at its protobuf default. -/
def StellarSignTx.init : StellarSignTx :=
  { address_n := []
    network_passphrase := none
    source_account := none
    fee := none
    sequence_number := none
    timebounds_start := none
    timebounds_end := none
    memo_type := none
    memo_text := none
    memo_id := none
    memo_hash := none
    num_operations := none }

/-! ## The external Stellar SDK object model (inputs of the converter) -/

/-- `stellar_sdk.Price` (fields `n`, `d`). -/
structure Price where
  n : Int
  d : Int
deriving DecidableEq

/-- The `Union[Price, str, Decimal]` accepted by `_read_price`: either already
a `Price` object or a raw price (string/decimal) to be converted by the SDK
helper `Price.from_raw_price`. -/
inductive PriceInput where
  | price (p : Price)
  | raw (s : String)
deriving DecidableEq

/-- Classification of an SDK `Asset` as observed through `is_native()` /
`guess_asset_type()`. -/
inductive SdkAssetClass where
  | native
  | credit_alphanum4
  | credit_alphanum12
  | otherClass
deriving DecidableEq

/-- `stellar_sdk.Asset` as used by `_read_asset`. -/
structure SdkAsset where
  assetClass : SdkAssetClass
  code : String
  issuer : String
deriving DecidableEq

/-- The signer-key union reached as `op.signer.signer_key.signer_key`; the
constructor is the XDR `type`, the payload the selected `uint256`. -/
inductive SignerKey where
  | ed25519 (uint256 : List Nat)
  | preAuthTx (uint256 : List Nat)
  | hashX (uint256 : List Nat)
  | unsupported
deriving DecidableEq

/-- `op.signer` of a `SetOptions` operation. -/
structure SdkSigner where
  signer_key : SignerKey
  weight : Nat
deriving DecidableEq

/-- The SDK memo taxonomy dispatched on by `from_envelope`; anything that is
not a `TextMemo`/`IdMemo`/`HashMemo`/`ReturnHashMemo` (e.g. `NoneMemo`) falls
into the final `else` branch. -/
inductive SdkMemo where
  | noneMemo
  | text (memo_text : String)
  | id (memo_id : Nat)
  | hash (memo_hash : List Nat)
  | returnHash (memo_return : List Nat)
deriving DecidableEq

/-- `stellar_sdk.TimeBounds`. -/
structure TimeBounds where
  min_time : Nat
  max_time : Nat
deriving DecidableEq

/-- The SDK operation classes `_read_operation` dispatches on with
`isinstance`, one constructor each, holding exactly the attributes the
converter reads.  `op.source` is pre-projected to its `account_id`
(`Option String`).  `unknown` stands for any other `Operation` subclass
(e.g. `Inflation`), carrying its Python class name. -/
inductive SdkOperation where
  | createAccount (source : Option String) (destination : String)
      (starting_balance : String)
  | payment (source : Option String) (destination : String) (asset : SdkAsset)
      (amount : String)
  | pathPaymentStrictReceive (source : Option String) (send_asset : SdkAsset)
      (send_max : String) (destination : String) (dest_asset : SdkAsset)
      (dest_amount : String) (path : List SdkAsset)
  | manageSellOffer (source : Option String) (selling : SdkAsset)
      (buying : SdkAsset) (amount : String) (price : PriceInput) (offer_id : Int)
  | createPassiveSellOffer (source : Option String) (selling : SdkAsset)
      (buying : SdkAsset) (amount : String) (price : PriceInput)
  | setOptions (source : Option String) (inflation_dest : Option String)
      (clear_flags : Option Nat) (set_flags : Option Nat)
      (master_weight : Option Nat) (low_threshold : Option Nat)
      (med_threshold : Option Nat) (high_threshold : Option Nat)
      (home_domain : Option String) (signer : Option SdkSigner)
  | changeTrust (source : Option String) (asset : SdkAsset) (limit : String)
  | allowTrust (source : Option String) (trustor : String) (asset_code : String)
      (authorize : Nat)
  | accountMerge (source : Option String) (destination : String)
  | manageData (source : Option String) (data_name : String)
      (data_value : Option (List Nat))
  | bumpSequence (source : Option String) (bump_to : Int)
  | unknown (className : String)
deriving DecidableEq

/-- `envelope.transaction` with the attributes `from_envelope` reads
(`source` pre-projected to `source.account_id`). -/
structure SdkTransaction where
  source : String
  fee : Nat
  sequence : Int
  time_bounds : Option TimeBounds
  memo : SdkMemo
  operations : List SdkOperation
deriving DecidableEq

/-- `stellar_sdk.TransactionEnvelope`. -/
structure TransactionEnvelope where
  transaction : SdkTransaction
deriving DecidableEq

/-! ## The converter -/

/-- A Python list comprehension `[f(x) for x in l]` where `f` may raise:
elements are produced left to right and the first exception propagates. -/
def mapExcept {α β ε : Type} (f : α → Except ε β) : List α → Except ε (List β)
  | [] => .ok []
  | a :: l =>
    match f a with
    | .error e => .error e
    | .ok b =>
      match mapExcept f l with
      | .error e => .error e
      | .ok bs => .ok (b :: bs)

section Converter

/- The two SDK numeric helpers the converter delegates to, out of scope here:
`Operation.to_xdr_amount` (decimal-string amount → stroops) and
`Price.from_raw_price`. -/
variable (to_xdr_amount : String → Int) (from_raw_price : String → Price)

/-- `_read_amount`. -/
def _read_amount (amount : String) : Int :=
  to_xdr_amount amount

/-- `_read_price`. -/
def _read_price : PriceInput → Price
  | .price p => p
  | .raw s => from_raw_price s

/-- `_read_asset`; raises `ValueError("Unsupported asset type")` on anything
that is neither native nor alphanum4/alphanum12. -/
def _read_asset (asset : SdkAsset) : Except String StellarAssetType :=
  if asset.assetClass = .native then
    .ok { type := ASSET_TYPE_NATIVE, code := none, issuer := none }
  else if asset.assetClass = .credit_alphanum4 then
    .ok { type := ASSET_TYPE_ALPHA4, code := some asset.code,
          issuer := some asset.issuer }
  else if asset.assetClass = .credit_alphanum12 then
    .ok { type := ASSET_TYPE_ALPHA12, code := some asset.code,
          issuer := some asset.issuer }
  else .error "Unsupported asset type"

/-- `_read_operation`: the `isinstance` dispatch over the SDK operation
classes; `ValueError`s are the `.error` cases. -/
def _read_operation : SdkOperation → Except String StellarOp
  | .createAccount source destination starting_balance =>
      .ok (.createAccountOp source destination
        (_read_amount to_xdr_amount starting_balance))
  | .payment source destination asset amount => do
      let a ← _read_asset asset
      .ok (.paymentOp source destination a (_read_amount to_xdr_amount amount))
  | .pathPaymentStrictReceive source send_asset send_max destination dest_asset
      dest_amount path => do
      let sendA ← _read_asset send_asset
      let destA ← _read_asset dest_asset
      let paths ← mapExcept _read_asset path
      .ok (.pathPaymentOp source sendA (_read_amount to_xdr_amount send_max)
        destination destA (_read_amount to_xdr_amount dest_amount) paths)
  | .manageSellOffer source selling buying amount price offer_id => do
      let p := _read_price from_raw_price price
      let sellingA ← _read_asset selling
      let buyingA ← _read_asset buying
      .ok (.manageOfferOp source sellingA buyingA
        (_read_amount to_xdr_amount amount) p.n p.d offer_id)
  | .createPassiveSellOffer source selling buying amount price => do
      let p := _read_price from_raw_price price
      let sellingA ← _read_asset selling
      let buyingA ← _read_asset buying
      .ok (.createPassiveOfferOp source sellingA buyingA
        (_read_amount to_xdr_amount amount) p.n p.d)
  | .setOptions source inflation_dest clear_flags set_flags master_weight
      low_threshold med_threshold high_threshold home_domain signer =>
      let operation : StellarSetOptionsOp :=
        { source_account := source
          inflation_destination_account := inflation_dest
          clear_flags := clear_flags
          set_flags := set_flags
          master_weight := master_weight
          low_threshold := low_threshold
          medium_threshold := med_threshold
          high_threshold := high_threshold
          home_domain := home_domain
          signer_type := none
          signer_key := none
          signer_weight := none }
      match signer with
      | none => .ok (.setOptionsOp operation)
      | some sg =>
        match sg.signer_key with
        | .ed25519 uint256 =>
            .ok (.setOptionsOp { operation with
              signer_type := some SIGNER_KEY_TYPE_ED25519
              signer_key := some uint256
              signer_weight := some sg.weight })
        | .hashX uint256 =>
            .ok (.setOptionsOp { operation with
              signer_type := some SIGNER_KEY_TYPE_HASH_X
              signer_key := some uint256
              signer_weight := some sg.weight })
        | .preAuthTx uint256 =>
            .ok (.setOptionsOp { operation with
              signer_type := some SIGNER_KEY_TYPE_PRE_AUTH_TX
              signer_key := some uint256
              signer_weight := some sg.weight })
        | .unsupported => .error "Unsupported signer key type"
  | .changeTrust source asset limit => do
      let a ← _read_asset asset
      .ok (.changeTrustOp source a (_read_amount to_xdr_amount limit))
  | .allowTrust source trustor asset_code authorize =>
      if authorize = UNAUTHORIZED_FLAG ∨ authorize = AUTHORIZED_FLAG then
        let asset_type :=
          if asset_code.length ≤ 4 then ASSET_TYPE_ALPHA4 else ASSET_TYPE_ALPHA12
        .ok (.allowTrustOp source trustor asset_type asset_code authorize)
      else .error "Unsupported trust line flag"
  | .accountMerge source destination =>
      .ok (.accountMergeOp source destination)
  | .manageData source data_name data_value =>
      .ok (.manageDataOp source data_name data_value)
  | .bumpSequence source bump_to =>
      .ok (.bumpSequenceOp source bump_to)
  | .unknown className =>
      .error ("Unknown operation type: " ++ className)

/-- `from_envelope`: builds the `StellarSignTx` header from the envelope and
converts each operation; any `ValueError` from `_read_operation` propagates. -/
def from_envelope (envelope : TransactionEnvelope) :
    Except String (StellarSignTx × List StellarOp) :=
  let parsed_tx := envelope.transaction
  let tx := { StellarSignTx.init with
    source_account := some parsed_tx.source
    fee := some parsed_tx.fee
    sequence_number := some parsed_tx.sequence }
  let tx := match parsed_tx.time_bounds with
    | some tb => { tx with
        timebounds_start := some tb.min_time
        timebounds_end := some tb.max_time }
    | none => tx
  let tx := match parsed_tx.memo with
    | .text s => { tx with memo_type := some MEMO_TYPE_TEXT, memo_text := some s }
    | .id i => { tx with memo_type := some MEMO_TYPE_ID, memo_id := some i }
    | .hash h => { tx with memo_type := some MEMO_TYPE_HASH, memo_hash := some h }
    | .returnHash h => { tx with
        memo_type := some MEMO_TYPE_RETURN
        memo_hash := some h }
    | .noneMemo => { tx with memo_type := some MEMO_TYPE_NONE }
  let tx := { tx with num_operations := some parsed_tx.operations.length }
  match mapExcept (_read_operation to_xdr_amount from_raw_price)
      parsed_tx.operations with
  | .error e => .error e
  | .ok operations => .ok (tx, operations)

end Converter

/-! ## The signing exchange (`sign_tx`) -/

/-- The device responses `sign_tx` distinguishes: `StellarTxOpRequest`,
`StellarSignedTx` (carrying the signed artifact σ), or any other message
class, identified by its Python class name. -/
inductive Response (σ : Type) where
  | txOpRequest
  | signedTx (s : σ)
  | other (name : String)
deriving DecidableEq

/-- `resp.__class__.__name__` as used in the "Unexpected message" error. -/
def Response.className {σ : Type} : Response σ → String
  | .txOpRequest => "StellarTxOpRequest"
  | .signedTx _ => "StellarSignedTx"
  | .other name => name

/-- One message handed to the transport by `client.call`: the (already
updated) header, or one operation protobuf message. -/
inductive SentMsg (Op : Type) where
  | header (tx : StellarSignTx)
  | op (o : Op)
deriving DecidableEq

/-- How `sign_tx` can fail: an `exceptions.TrezorException` with its message
string, or any other exception escaping `client.call` (transport fault),
carried verbatim. -/
inductive SignError (ε : Type) where
  | trezor (msg : String)
  | transport (e : ε)
deriving DecidableEq

/-- Message of the `TrezorException` raised from the `except IndexError`
handler (pop from empty list). -/
def endOfOperationsMsg : String :=
  "Reached end of operations without a signature."

/-- Message of the `TrezorException` raised when the final response is not a
`StellarSignedTx`; `name` is the response's class name. -/
def unexpectedMessageMsg (name : String) : String :=
  "Unexpected message: " ++ name

/-- Message of the `TrezorException` raised when a signature arrives while
operations remain. -/
def prematureSignatureMsg : String :=
  "Received a signature before processing all operations."

/-- How the `while isinstance(resp, StellarTxOpRequest)` loop can exit:
normally with the first non-request response, via `IndexError` on
`operations.pop(0)`, or via a transport exception from `client.call`. -/
inductive LoopExit (σ ε : Type) where
  | finished (resp : Response σ)
  | popFailed
  | transportFailed (e : ε)
deriving DecidableEq

/-- State observable when the loop exits: how it exited, the remaining
(mutated) operations list, every message sent so far in order, and the
number of `client.call` exchanges performed so far. -/
structure LoopOut (Op σ ε : Type) where
  exit : LoopExit σ ε
  queue : List Op
  sent : List (SentMsg Op)
  calls : Nat

/-- The signing loop: while the response is a `StellarTxOpRequest`, pop the
front operation (IndexError if none) and exchange it for the next response;
`device calls` is the response to the `calls`-th exchange. -/
def signLoop {Op σ ε : Type} (device : Nat → Except ε (Response σ)) :
    Response σ → List Op → List (SentMsg Op) → Nat → LoopOut Op σ ε
  | .signedTx s, queue, sent, calls => ⟨.finished (.signedTx s), queue, sent, calls⟩
  | .other name, queue, sent, calls => ⟨.finished (.other name), queue, sent, calls⟩
  | .txOpRequest, [], sent, calls => ⟨.popFailed, [], sent, calls⟩
  | .txOpRequest, o :: rest, sent, calls =>
    match device calls with
    | .error e => ⟨.transportFailed e, rest, sent ++ [SentMsg.op o], calls + 1⟩
    | .ok r => signLoop device r rest (sent ++ [SentMsg.op o]) (calls + 1)

/-- The in-place header update `sign_tx` performs before the first send. -/
def applyHeaderFields (tx : StellarSignTx) (address_n : List Nat)
    (network_passphrase : String) (num_operations : Nat) : StellarSignTx :=
  { tx with
    network_passphrase := some network_passphrase
    address_n := address_n
    num_operations := some num_operations }

/-- Everything observable about one `sign_tx` invocation: the Python result
(returned `StellarSignedTx` payload or raised exception), the header object
after the in-place mutation, the operations list after its `pop(0)`
mutations, the messages sent to the transport in order, and the number of
send/receive exchanges. -/
structure SignRun (Op σ ε : Type) where
  result : Except (SignError ε) σ
  finalTx : StellarSignTx
  queue : List Op
  sent : List (SentMsg Op)
  calls : Nat

/-- The epilogue of `sign_tx` after the loop: the `except IndexError`
handler, propagation of transport faults, the
`if not isinstance(resp, StellarSignedTx)` check, and the
`if operations` check, in source order. -/
def finishRun {Op σ ε : Type} (tx : StellarSignTx) (out : LoopOut Op σ ε) :
    SignRun Op σ ε :=
  match out.exit with
  | .popFailed =>
      ⟨.error (.trezor endOfOperationsMsg), tx, out.queue, out.sent, out.calls⟩
  | .transportFailed e =>
      ⟨.error (.transport e), tx, out.queue, out.sent, out.calls⟩
  | .finished resp =>
    match resp with
    | .signedTx s =>
      if out.queue.isEmpty then ⟨.ok s, tx, out.queue, out.sent, out.calls⟩
      else ⟨.error (.trezor prematureSignatureMsg), tx, out.queue, out.sent,
        out.calls⟩
    | r =>
      ⟨.error (.trezor (unexpectedMessageMsg r.className)), tx, out.queue,
        out.sent, out.calls⟩

/-- `sign_tx(client, tx, operations, address_n, network_passphrase)`.
The header is mutated in place, then sent (`client.call(tx)` is outside the
`try`, so a transport fault there propagates), then the loop runs, then the
final response must be a `StellarSignedTx` and the operations list must be
exhausted (`finishRun`). -/
def sign_tx {Op σ ε : Type} (device : Nat → Except ε (Response σ))
    (tx : StellarSignTx) (operations : List Op) (address_n : List Nat)
    (network_passphrase : String) : SignRun Op σ ε :=
  let tx := applyHeaderFields tx address_n network_passphrase operations.length
  match device 0 with
  | .error e =>
      ⟨.error (.transport e), tx, operations, [SentMsg.header tx], 1⟩
  | .ok r0 =>
      finishRun tx (signLoop device r0 operations [SentMsg.header tx] 1)

/-! ## Concrete fixtures used to exercise the theorems -/

/-- A device that requests both operations and then signs: responses
`TxOpRequest, TxOpRequest, SignedTx 7`. -/
def wDevDone : Nat → Except Unit (Response Nat)
  | 0 => .ok .txOpRequest
  | 1 => .ok .txOpRequest
  | _ => .ok (.signedTx 7)

/-- A device that signs immediately, whatever was declared. -/
def wDevEager : Nat → Except Unit (Response Nat) :=
  fun _ => .ok (.signedTx 7)

/-- A device that keeps requesting operations forever. -/
def wDevGreedy : Nat → Except Unit (Response Nat) :=
  fun _ => .ok .txOpRequest

/-- A device whose first response is an unrelated `Failure` message. -/
def wDevConfused : Nat → Except Unit (Response Nat) :=
  fun _ => .ok (.other "Failure")

/-- A device whose transport dies on the second exchange. -/
def wDevBroken : Nat → Except String (Response Nat)
  | 0 => .ok .txOpRequest
  | _ => .error "usb disconnected"

/-- A two-operation envelope (a `BumpSequence` and an `AccountMerge`). -/
def wEnvelope : TransactionEnvelope :=
  ⟨{ source := "GAAA"
     fee := 100
     sequence := 5
     time_bounds := none
     memo := .noneMemo
     operations := [.bumpSequence none 9, .accountMerge (some "GBBB") "GCCC"] }⟩

/-- The header `from_envelope` builds for `wEnvelope`. -/
def wTxExpected : StellarSignTx :=
  { StellarSignTx.init with
    source_account := some "GAAA"
    fee := some 100
    sequence_number := some 5
    memo_type := some MEMO_TYPE_NONE
    num_operations := some 2 }

/-- The operation list `from_envelope` builds for `wEnvelope`. -/
def wOpsExpected : List StellarOp :=
  [.bumpSequenceOp none 9, .accountMergeOp (some "GBBB") "GCCC"]

/-! ## Helper lemmas about the loop -/

/-- A response that is not a `StellarTxOpRequest` ends the loop at once,
touching neither the queue nor the transport. -/
theorem signLoop_not_request {Op σ ε : Type} (device : Nat → Except ε (Response σ))
    (r : Response σ) (hr : r ≠ .txOpRequest) (q : List Op)
    (sent : List (SentMsg Op)) (k : Nat) :
    signLoop device r q sent k = ⟨.finished r, q, sent, k⟩ := by
  cases r with
  | txOpRequest => exact absurd rfl hr
  | signedTx s => rw [signLoop]
  | other n => rw [signLoop]

/-- If the device answers the next `m` exchanges with requests and the
`(m+1)`-st with a non-request response `r`, the loop consumes exactly the
first `m+1` queued operations, sends them in order, and finishes with `r`. -/
theorem signLoop_finish {Op σ ε : Type} (device : Nat → Except ε (Response σ))
    (r : Response σ) (hr : r ≠ .txOpRequest) :
    ∀ (m : Nat) (q : List Op) (sent : List (SentMsg Op)) (k : Nat),
      m < q.length →
      (∀ i, i < m → device (k + i) = .ok .txOpRequest) →
      device (k + m) = .ok r →
      signLoop device .txOpRequest q sent k =
        ⟨.finished r, q.drop (m + 1),
          sent ++ (q.take (m + 1)).map SentMsg.op, k + (m + 1)⟩ := by
  intro m
  induction m with
  | zero =>
    intro q sent k hlt _ hres
    cases q with
    | nil => simp at hlt
    | cons o rest =>
      rw [Nat.add_zero] at hres
      simp only [signLoop, hres]
      rw [signLoop_not_request device r hr]
      simp
  | succ m ih =>
    intro q sent k hlt hreq hres
    cases q with
    | nil => simp at hlt
    | cons o rest =>
      have h0 : device k = .ok .txOpRequest := by
        simpa using hreq 0 (Nat.succ_pos m)
      simp only [signLoop, h0]
      rw [ih rest (sent ++ [SentMsg.op o]) (k + 1)
        (by simp only [List.length_cons] at hlt; omega)
        (by
          intro i hi
          have h := hreq (i + 1) (Nat.succ_lt_succ hi)
          have harith : k + (i + 1) = k + 1 + i := by omega
          rwa [harith] at h)
        (by
          have harith : k + (m + 1) = k + 1 + m := by omega
          rwa [harith] at hres)]
      simp only [LoopOut.mk.injEq]
      refine ⟨?_, ?_, ?_, ?_⟩ <;> first | trivial | omega | simp

/-- Same as `signLoop_finish` but the `(m+1)`-st exchange dies on the
transport: the fault is surfaced after `m+1` operations were popped. -/
theorem signLoop_fault {Op σ ε : Type} (device : Nat → Except ε (Response σ))
    (e : ε) :
    ∀ (m : Nat) (q : List Op) (sent : List (SentMsg Op)) (k : Nat),
      m < q.length →
      (∀ i, i < m → device (k + i) = .ok .txOpRequest) →
      device (k + m) = .error e →
      signLoop device .txOpRequest q sent k =
        ⟨.transportFailed e, q.drop (m + 1),
          sent ++ (q.take (m + 1)).map SentMsg.op, k + (m + 1)⟩ := by
  intro m
  induction m with
  | zero =>
    intro q sent k hlt _ hres
    cases q with
    | nil => simp at hlt
    | cons o rest =>
      rw [Nat.add_zero] at hres
      simp only [signLoop, hres]
      simp
  | succ m ih =>
    intro q sent k hlt hreq hres
    cases q with
    | nil => simp at hlt
    | cons o rest =>
      have h0 : device k = .ok .txOpRequest := by
        simpa using hreq 0 (Nat.succ_pos m)
      simp only [signLoop, h0]
      rw [ih rest (sent ++ [SentMsg.op o]) (k + 1)
        (by simp only [List.length_cons] at hlt; omega)
        (by
          intro i hi
          have h := hreq (i + 1) (Nat.succ_lt_succ hi)
          have harith : k + (i + 1) = k + 1 + i := by omega
          rwa [harith] at h)
        (by
          have harith : k + (m + 1) = k + 1 + m := by omega
          rwa [harith] at hres)]
      simp only [LoopOut.mk.injEq]
      refine ⟨?_, ?_, ?_, ?_⟩ <;> first | trivial | omega | simp

/-- If the device answers every exchange with a request, the loop drains the
whole queue and then dies popping from the empty list (`IndexError`). -/
theorem signLoop_exhaust {Op σ ε : Type} (device : Nat → Except ε (Response σ)) :
    ∀ (q : List Op) (sent : List (SentMsg Op)) (k : Nat),
      (∀ i, i < q.length → device (k + i) = .ok .txOpRequest) →
      signLoop device .txOpRequest q sent k =
        ⟨.popFailed, [], sent ++ q.map SentMsg.op, k + q.length⟩ := by
  intro q
  induction q with
  | nil =>
    intro sent k _
    rw [signLoop]
    simp
  | cons o rest ih =>
    intro sent k hreq
    have h0 : device k = .ok .txOpRequest := by
      simpa using hreq 0 (by simp)
    simp only [signLoop, h0]
    rw [ih (sent ++ [SentMsg.op o]) (k + 1)
      (by
        intro i hi
        have h := hreq (i + 1) (by simp only [List.length_cons]; omega)
        have harith : k + (i + 1) = k + 1 + i := by omega
        rwa [harith] at h)]
    simp only [LoopOut.mk.injEq]
    refine ⟨?_, ?_, ?_, ?_⟩ <;>
      first | trivial | (simp only [List.length_cons]; omega) | simp

/-- Whatever the device does, the loop pops some prefix of the queue, sends
exactly that prefix in order after the messages already sent, and performs
one exchange per popped operation. -/
theorem signLoop_shape {Op σ ε : Type} (device : Nat → Except ε (Response σ)) :
    ∀ (q : List Op) (r : Response σ) (sent : List (SentMsg Op)) (k : Nat),
      ∃ m, m ≤ q.length ∧
        (signLoop device r q sent k).queue = q.drop m ∧
        (signLoop device r q sent k).sent =
          sent ++ (q.take m).map SentMsg.op ∧
        (signLoop device r q sent k).calls = k + m := by
  intro q
  induction q with
  | nil =>
    intro r sent k
    refine ⟨0, by simp, ?_⟩
    cases r <;> rw [signLoop] <;> simp
  | cons o rest ih =>
    intro r sent k
    cases r with
    | signedTx s =>
      refine ⟨0, by simp, ?_⟩
      rw [signLoop]
      simp
    | other n =>
      refine ⟨0, by simp, ?_⟩
      rw [signLoop]
      simp
    | txOpRequest =>
      cases hdev : device k with
      | error e =>
        refine ⟨1, by simp, ?_⟩
        simp only [signLoop, hdev]
        simp
      | ok r' =>
        obtain ⟨m, hm, hq, hs, hc⟩ := ih r' (sent ++ [SentMsg.op o]) (k + 1)
        refine ⟨m + 1, by simp only [List.length_cons]; omega, ?_, ?_, ?_⟩
        · simp only [signLoop, hdev]
          simpa using hq
        · simp only [signLoop, hdev]
          rw [hs]
          simp
        · simp only [signLoop, hdev]
          rw [hc]
          omega

/-- The loop only appends to the list of messages already sent. -/
theorem signLoop_sent_extends {Op σ ε : Type}
    (device : Nat → Except ε (Response σ)) (q : List Op) (r : Response σ)
    (sent : List (SentMsg Op)) (k : Nat) :
    ∃ tail, (signLoop device r q sent k).sent = sent ++ tail := by
  obtain ⟨m, _, _, hs, _⟩ := signLoop_shape device q r sent k
  exact ⟨_, hs⟩

/-- The epilogue never touches the header, the queue, the sent trace or the
call count: it only decides the result. -/
theorem finishRun_frame {Op σ ε : Type} (tx : StellarSignTx)
    (out : LoopOut Op σ ε) :
    (finishRun tx out).finalTx = tx ∧
    (finishRun tx out).queue = out.queue ∧
    (finishRun tx out).sent = out.sent ∧
    (finishRun tx out).calls = out.calls := by
  rcases out with ⟨ex, queue, sent, calls⟩
  cases ex with
  | popFailed => exact ⟨rfl, rfl, rfl, rfl⟩
  | transportFailed e => exact ⟨rfl, rfl, rfl, rfl⟩
  | finished r =>
    cases r with
    | txOpRequest => exact ⟨rfl, rfl, rfl, rfl⟩
    | other n => exact ⟨rfl, rfl, rfl, rfl⟩
    | signedTx s =>
      by_cases h : queue.isEmpty = true <;> simp [finishRun, h]

/-! ## Helper lemmas about the converter -/

/-- A successful comprehension produces one output per input. -/
theorem mapExcept_ok_length {α β ε : Type} (f : α → Except ε β) :
    ∀ (l : List α) (ys : List β), mapExcept f l = .ok ys →
      ys.length = l.length := by
  intro l
  induction l with
  | nil =>
    intro ys h
    rw [mapExcept] at h
    cases h
    rfl
  | cons a t ih =>
    intro ys h
    rw [mapExcept] at h
    cases hfa : f a with
    | error e => rw [hfa] at h; simp at h
    | ok b =>
      rw [hfa] at h
      cases hmt : mapExcept f t with
      | error e => rw [hmt] at h; simp at h
      | ok bs =>
        rw [hmt] at h
        simp only at h
        cases h
        simp [ih bs hmt]

/-- A successful comprehension converts element `i` of the input to element
`i` of the output. -/
theorem mapExcept_ok_get {α β ε : Type} (f : α → Except ε β) :
    ∀ (l : List α) (ys : List β), mapExcept f l = .ok ys →
      ∀ (i : Nat) (hi : i < l.length) (hi' : i < ys.length),
        f (l.get ⟨i, hi⟩) = .ok (ys.get ⟨i, hi'⟩) := by
  intro l
  induction l with
  | nil =>
    intro ys h i hi hi'
    simp at hi
  | cons a t ih =>
    intro ys h i hi hi'
    rw [mapExcept] at h
    cases hfa : f a with
    | error e => rw [hfa] at h; simp at h
    | ok b =>
      rw [hfa] at h
      cases hmt : mapExcept f t with
      | error e => rw [hmt] at h; simp at h
      | ok bs =>
        rw [hmt] at h
        simp only at h
        cases h
        cases i with
        | zero => simpa using hfa
        | succ i =>
          exact ih bs hmt i (by simpa using hi) (by simpa using hi')

/-! ## Helper lemmas about the error messages -/

/-- The "Unexpected message" text starts with a `'U'`, whatever the offending
class name is. -/
theorem unexpectedMessageMsg_head (name : String) :
    (unexpectedMessageMsg name).data.head? = some 'U' := by
  have h : "Unexpected message: ".data = 'U' :: "nexpected message: ".data := rfl
  rw [unexpectedMessageMsg, String.data_append, h]
  rfl

/-- The three `TrezorException` messages of `sign_tx` are pairwise distinct,
whatever class name the "Unexpected message" one embeds. -/
theorem trezor_msgs_distinct (name : String) :
    unexpectedMessageMsg name ≠ endOfOperationsMsg ∧
    unexpectedMessageMsg name ≠ prematureSignatureMsg ∧
    endOfOperationsMsg ≠ prematureSignatureMsg := by
  refine ⟨?_, ?_, by decide⟩
  · intro h
    have h1 := congrArg (fun s => s.data.head?) h
    simp only at h1
    rw [unexpectedMessageMsg_head] at h1
    exact absurd h1 (by decide)
  · intro h
    have h1 := congrArg (fun s => s.data.head?) h
    simp only at h1
    rw [unexpectedMessageMsg_head] at h1
    exact absurd h1 (by decide)

/-- A list with positive length is not empty. -/
theorem isEmpty_false_of_length_pos {α : Type} (l : List α) (h : 0 < l.length) :
    l.isEmpty = false := by
  cases l with
  | nil => simp at h
  | cons a t => rfl

/-! ## The claims -/

/-- C1: for every `N ≥ 0`, if the device answers the header and each of the
first `N − 1` operations with a `StellarTxOpRequest` (`N` requests in all)
and answers the last exchange with the signed transaction, then `sign_tx`
returns exactly that signed result and the operations queue is empty when it
returns. -/
theorem sign_tx_complete_run {Op σ ε : Type}
    (device : Nat → Except ε (Response σ)) (tx : StellarSignTx)
    (operations : List Op) (address_n : List Nat) (network_passphrase : String)
    (s : σ)
    (hreq : ∀ i, i < operations.length → device i = .ok .txOpRequest)
    (hsig : device operations.length = .ok (.signedTx s)) :
    (sign_tx device tx operations address_n network_passphrase).result =
      .ok s ∧
    (sign_tx device tx operations address_n network_passphrase).queue = [] := by
  cases operations with
  | nil =>
    simp only [List.length_nil] at hsig
    simp only [sign_tx, hsig]
    rw [signLoop_not_request device _ (by simp)]
    constructor <;> simp [finishRun]
  | cons o rest =>
    have h0 : device 0 = .ok .txOpRequest := hreq 0 (by simp)
    have hloop := signLoop_finish device (.signedTx s) (by simp) rest.length
      (o :: rest)
      [SentMsg.header
        (applyHeaderFields tx address_n network_passphrase (o :: rest).length)]
      1
      (by simp)
      (by
        intro i hi
        have h := hreq (i + 1) (by simp only [List.length_cons]; omega)
        rwa [Nat.add_comm 1 i])
      (by
        have h := hsig
        simp only [List.length_cons] at h
        rwa [Nat.add_comm 1 rest.length])
    simp only [sign_tx, h0]
    rw [hloop]
    have hdrop : (o :: rest).drop (rest.length + 1) = [] := by
      simp [List.drop_succ_cons]
    constructor <;> simp [finishRun, hdrop]

/-- C1 witness: `wDevDone` requests twice and then signs, so a two-operation
exchange succeeds with signature `7` and an empty queue. -/
theorem sign_tx_complete_run_witness :
    wDevDone 2 = .ok (.signedTx 7) ∧
    (sign_tx wDevDone StellarSignTx.init ([10, 20] : List Nat) [44]
      "np").result = .ok 7 ∧
    (sign_tx wDevDone StellarSignTx.init ([10, 20] : List Nat) [44]
      "np").queue = [] :=
  let h := sign_tx_complete_run wDevDone StellarSignTx.init
    ([10, 20] : List Nat) [44] "np" 7
    (by intro i hi; simp at hi; interval_cases i <;> rfl) rfl
  ⟨rfl, h.1, h.2⟩

/-- C2: if the device returns the signed transaction as the `(j+1)`-st
response while `j` is still smaller than the number of supplied operations
(so at least one operation was never sent), `sign_tx` raises the
premature-signature `TrezorException` instead of returning the signature,
and the unsent suffix is still queued. -/
theorem sign_tx_premature_signature {Op σ ε : Type}
    (device : Nat → Except ε (Response σ)) (tx : StellarSignTx)
    (operations : List Op) (address_n : List Nat) (network_passphrase : String)
    (s : σ) (j : Nat)
    (hj : j < operations.length)
    (hreq : ∀ i, i < j → device i = .ok .txOpRequest)
    (hsig : device j = .ok (.signedTx s)) :
    (sign_tx device tx operations address_n network_passphrase).result =
      .error (.trezor prematureSignatureMsg) ∧
    (sign_tx device tx operations address_n network_passphrase).queue =
      operations.drop j := by
  cases j with
  | zero =>
    simp only [sign_tx, hsig]
    rw [signLoop_not_request device _ (by simp)]
    have hne : operations.isEmpty = false :=
      isEmpty_false_of_length_pos operations (by omega)
    constructor <;> simp [finishRun, hne]
  | succ m =>
    have h0 : device 0 = .ok .txOpRequest := hreq 0 (Nat.succ_pos m)
    have hloop := signLoop_finish device (.signedTx s) (by simp) m operations
      [SentMsg.header
        (applyHeaderFields tx address_n network_passphrase operations.length)]
      1
      (by omega)
      (by
        intro i hi
        have h := hreq (i + 1) (by omega)
        rwa [Nat.add_comm 1 i])
      (by
        have h := hsig
        rwa [Nat.add_comm 1 m])
    simp only [sign_tx, h0]
    rw [hloop]
    have hne : (operations.drop (m + 1)).isEmpty = false :=
      isEmpty_false_of_length_pos _ (by rw [List.length_drop]; omega)
    constructor <;> simp [finishRun, hne]

/-- C2 witness: `wDevEager` signs immediately although two operations were
supplied, so the run fails with the premature-signature error and both
operations are still queued. -/
theorem sign_tx_premature_signature_witness :
    wDevEager 0 = .ok (.signedTx 7) ∧
    (sign_tx wDevEager StellarSignTx.init ([10, 20] : List Nat) [44]
      "np").result = .error (.trezor prematureSignatureMsg) ∧
    (sign_tx wDevEager StellarSignTx.init ([10, 20] : List Nat) [44]
      "np").queue = ([10, 20] : List Nat).drop 0 :=
  let h := sign_tx_premature_signature wDevEager StellarSignTx.init
    ([10, 20] : List Nat) [44] "np" 7 0 (by simp)
    (by intro i hi; omega) rfl
  ⟨rfl, h.1, h.2⟩

/-- C3: if the device answers the header and every one of the `N` supplied
operations with yet another `StellarTxOpRequest` (`N + 1` requests in all),
the `pop(0)` on the drained list raises `IndexError` and `sign_tx` fails
with the end-of-operations `TrezorException` — a message distinct from the
other two failure messages. -/
theorem sign_tx_operations_exhausted {Op σ ε : Type}
    (device : Nat → Except ε (Response σ)) (tx : StellarSignTx)
    (operations : List Op) (address_n : List Nat) (network_passphrase : String)
    (hreq : ∀ i, i ≤ operations.length → device i = .ok .txOpRequest) :
    (sign_tx device tx operations address_n network_passphrase).result =
      .error (.trezor endOfOperationsMsg) ∧
    (sign_tx device tx operations address_n network_passphrase).queue = [] ∧
    endOfOperationsMsg ≠ prematureSignatureMsg ∧
    (∀ name, endOfOperationsMsg ≠ unexpectedMessageMsg name) := by
  have h0 : device 0 = .ok .txOpRequest := hreq 0 (Nat.zero_le _)
  have hloop := signLoop_exhaust device operations
    [SentMsg.header
      (applyHeaderFields tx address_n network_passphrase operations.length)]
    1
    (by
      intro i hi
      have h := hreq (i + 1) (by omega)
      rwa [Nat.add_comm 1 i])
  simp only [sign_tx, h0]
  rw [hloop]
  refine ⟨by simp [finishRun], by simp [finishRun],
    (trezor_msgs_distinct "").2.2, ?_⟩
  intro name h
  exact (trezor_msgs_distinct name).1 h.symm

/-- C3 witness: `wDevGreedy` keeps requesting, so a one-operation exchange
fails with the end-of-operations error after draining the queue. -/
theorem sign_tx_operations_exhausted_witness :
    wDevGreedy 1 = .ok .txOpRequest ∧
    (sign_tx wDevGreedy StellarSignTx.init ([10] : List Nat) [44]
      "np").result = .error (.trezor endOfOperationsMsg) ∧
    (sign_tx wDevGreedy StellarSignTx.init ([10] : List Nat) [44]
      "np").queue = [] :=
  let h := sign_tx_operations_exhausted wDevGreedy StellarSignTx.init
    ([10] : List Nat) [44] "np" (fun _ _ => rfl)
  ⟨rfl, h.1, h.2.1⟩

/-- C4: if the first `j` responses are requests and the `(j+1)`-st response
is neither a `StellarTxOpRequest` nor a `StellarSignedTx` (in particular
`j = 0`: the first response to the header), `sign_tx` fails with the
unexpected-message `TrezorException` naming the offending class, having sent
only the header and the first `j` operations — nothing further — in exactly
`j + 1` exchanges. -/
theorem sign_tx_unexpected_message {Op σ ε : Type}
    (device : Nat → Except ε (Response σ)) (tx : StellarSignTx)
    (operations : List Op) (address_n : List Nat) (network_passphrase : String)
    (name : String) (j : Nat)
    (hj : j ≤ operations.length)
    (hreq : ∀ i, i < j → device i = .ok .txOpRequest)
    (hother : device j = .ok (.other name)) :
    (sign_tx device tx operations address_n network_passphrase).result =
      .error (.trezor (unexpectedMessageMsg name)) ∧
    (sign_tx device tx operations address_n network_passphrase).sent =
      SentMsg.header
        (applyHeaderFields tx address_n network_passphrase operations.length) ::
        (operations.take j).map SentMsg.op ∧
    (sign_tx device tx operations address_n network_passphrase).calls =
      j + 1 := by
  cases j with
  | zero =>
    simp only [sign_tx, hother]
    rw [signLoop_not_request device _ (by simp)]
    refine ⟨?_, ?_, ?_⟩ <;> simp [finishRun, Response.className]
  | succ m =>
    have h0 : device 0 = .ok .txOpRequest := hreq 0 (Nat.succ_pos m)
    have hloop := signLoop_finish device (.other name) (by simp) m operations
      [SentMsg.header
        (applyHeaderFields tx address_n network_passphrase operations.length)]
      1
      (by omega)
      (by
        intro i hi
        have h := hreq (i + 1) (by omega)
        rwa [Nat.add_comm 1 i])
      (by
        have h := hother
        rwa [Nat.add_comm 1 m])
    simp only [sign_tx, h0]
    rw [hloop]
    refine ⟨?_, ?_, ?_⟩
    · simp [finishRun, Response.className]
    · simp [finishRun]
    · simp [finishRun]
      omega

/-- C4 witness: `wDevConfused` answers the header with a `Failure` message,
so a one-operation exchange aborts at once: unexpected-message error, only
the header ever sent, a single exchange. -/
theorem sign_tx_unexpected_message_witness :
    wDevConfused 0 = .ok (.other "Failure") ∧
    (sign_tx wDevConfused StellarSignTx.init ([10] : List Nat) [44]
      "np").result = .error (.trezor (unexpectedMessageMsg "Failure")) ∧
    (sign_tx wDevConfused StellarSignTx.init ([10] : List Nat) [44]
      "np").calls = 1 :=
  let h := sign_tx_unexpected_message wDevConfused StellarSignTx.init
    ([10] : List Nat) [44] "np" "Failure" 0 (by simp)
    (by intro i hi; omega) rfl
  ⟨rfl, h.1, h.2.2⟩

/-- C5: whatever the device answers, the messages `sign_tx` hands to the
transport are exactly the header followed by some prefix of the supplied
operations in their original order — no reordering, skipping or duplication
— and the remaining queue is exactly the corresponding suffix, so the list
is consumed strictly front-to-back, one pop per device request. -/
theorem sign_tx_sends_prefix_in_order {Op σ ε : Type}
    (device : Nat → Except ε (Response σ)) (tx : StellarSignTx)
    (operations : List Op) (address_n : List Nat)
    (network_passphrase : String) :
    ∃ m, m ≤ operations.length ∧
      (sign_tx device tx operations address_n network_passphrase).sent =
        SentMsg.header
          (applyHeaderFields tx address_n network_passphrase
            operations.length) ::
          (operations.take m).map SentMsg.op ∧
      (sign_tx device tx operations address_n network_passphrase).queue =
        operations.drop m := by
  cases hdev : device 0 with
  | error e =>
    refine ⟨0, by simp, ?_, ?_⟩ <;> simp [sign_tx, hdev]
  | ok r0 =>
    obtain ⟨m, hm, hq, hs, _⟩ := signLoop_shape device operations r0
      [SentMsg.header
        (applyHeaderFields tx address_n network_passphrase operations.length)]
      1
    obtain ⟨_, hfq, hfs, _⟩ := finishRun_frame
      (applyHeaderFields tx address_n network_passphrase operations.length)
      (signLoop device r0 operations
        [SentMsg.header
          (applyHeaderFields tx address_n network_passphrase
            operations.length)]
        1)
    refine ⟨m, hm, ?_, ?_⟩
    · simp only [sign_tx, hdev]
      rw [hfs, hs]
      simp
    · simp only [sign_tx, hdev]
      rw [hfq, hq]

/-- C6: the three `TrezorException` values `sign_tx` can raise — unexpected
message (protocol violation), end of operations (exhausted queue) and
premature signature — are pairwise distinct error values, whatever class
name the unexpected-message one embeds, and each is distinct from every
transport error. -/
theorem sign_error_kinds_distinct {ε : Type} (name : String) (e : ε) :
    (SignError.trezor (unexpectedMessageMsg name) : SignError ε) ≠
      .trezor endOfOperationsMsg ∧
    (SignError.trezor (unexpectedMessageMsg name) : SignError ε) ≠
      .trezor prematureSignatureMsg ∧
    (SignError.trezor endOfOperationsMsg : SignError ε) ≠
      .trezor prematureSignatureMsg ∧
    (SignError.trezor (unexpectedMessageMsg name) : SignError ε) ≠
      .transport e ∧
    (SignError.trezor endOfOperationsMsg : SignError ε) ≠ .transport e ∧
    (SignError.trezor prematureSignatureMsg : SignError ε) ≠ .transport e := by
  obtain ⟨h1, h2, h3⟩ := trezor_msgs_distinct name
  refine ⟨?_, ?_, ?_, ?_, ?_, ?_⟩
  · intro h; exact h1 (by simpa using h)
  · intro h; exact h2 (by simpa using h)
  · intro h; exact h3 (by simpa using h)
  · intro h; exact SignError.noConfusion h
  · intro h; exact SignError.noConfusion h
  · intro h; exact SignError.noConfusion h

/-- C7: every protocol step is one paired send/receive: over any run the
number of messages sent equals the number of exchanges performed, and that
count is exactly 1 (the header) plus the number of operations consumed from
the queue — never two sends without an intervening receive, never a
retry. -/
theorem sign_tx_one_exchange_per_step {Op σ ε : Type}
    (device : Nat → Except ε (Response σ)) (tx : StellarSignTx)
    (operations : List Op) (address_n : List Nat)
    (network_passphrase : String) :
    (sign_tx device tx operations address_n network_passphrase).sent.length =
      (sign_tx device tx operations address_n network_passphrase).calls ∧
    (sign_tx device tx operations address_n network_passphrase).calls =
      1 + (operations.length -
        (sign_tx device tx operations address_n
          network_passphrase).queue.length) := by
  cases hdev : device 0 with
  | error e =>
    constructor
    · simp [sign_tx, hdev]
    · simp [sign_tx, hdev, Nat.sub_self]
  | ok r0 =>
    obtain ⟨m, hm, hq, hs, hc⟩ := signLoop_shape device operations r0
      [SentMsg.header
        (applyHeaderFields tx address_n network_passphrase operations.length)]
      1
    obtain ⟨_, hfq, hfs, hfc⟩ := finishRun_frame
      (applyHeaderFields tx address_n network_passphrase operations.length)
      (signLoop device r0 operations
        [SentMsg.header
          (applyHeaderFields tx address_n network_passphrase
            operations.length)]
        1)
    constructor
    · simp only [sign_tx, hdev]
      rw [hfs, hs, hfc, hc]
      simp only [List.length_append, List.length_map, List.length_take,
        List.length_singleton]
      omega
    · simp only [sign_tx, hdev]
      rw [hfc, hc, hfq, hq]
      simp only [List.length_drop]
      omega

/-- C8: if the first `j` responses are requests and the `(j+1)`-st exchange
fails at the transport level, `sign_tx` propagates that transport error
verbatim to the caller and performs no further transport interaction:
exactly `j + 1` exchanges happened. -/
theorem sign_tx_transport_error_propagates {Op σ ε : Type}
    (device : Nat → Except ε (Response σ)) (tx : StellarSignTx)
    (operations : List Op) (address_n : List Nat) (network_passphrase : String)
    (e : ε) (j : Nat)
    (hj : j ≤ operations.length)
    (hreq : ∀ i, i < j → device i = .ok .txOpRequest)
    (hfail : device j = .error e) :
    (sign_tx device tx operations address_n network_passphrase).result =
      .error (.transport e) ∧
    (sign_tx device tx operations address_n network_passphrase).calls =
      j + 1 := by
  cases j with
  | zero =>
    exact ⟨by simp [sign_tx, hfail], by simp [sign_tx, hfail]⟩
  | succ m =>
    have h0 : device 0 = .ok .txOpRequest := hreq 0 (Nat.succ_pos m)
    have hloop := signLoop_fault device e m operations
      [SentMsg.header
        (applyHeaderFields tx address_n network_passphrase operations.length)]
      1
      (by omega)
      (by
        intro i hi
        have h := hreq (i + 1) (by omega)
        rwa [Nat.add_comm 1 i])
      (by
        have h := hfail
        rwa [Nat.add_comm 1 m])
    simp only [sign_tx, h0]
    rw [hloop]
    constructor
    · simp [finishRun]
    · simp [finishRun]
      omega

/-- C8 witness: `wDevBroken` requests once and then the transport dies, so a
two-operation exchange surfaces exactly that transport error after two
exchanges. -/
theorem sign_tx_transport_error_propagates_witness :
    wDevBroken 1 = .error "usb disconnected" ∧
    (sign_tx wDevBroken StellarSignTx.init ([10, 20] : List Nat) [44]
      "np").result = .error (.transport "usb disconnected") ∧
    (sign_tx wDevBroken StellarSignTx.init ([10, 20] : List Nat) [44]
      "np").calls = 2 :=
  let h := sign_tx_transport_error_propagates wDevBroken StellarSignTx.init
    ([10, 20] : List Nat) [44] "np" "usb disconnected" 1 (by simp)
    (by intro i hi; interval_cases i; rfl) rfl
  ⟨rfl, h.1, h.2⟩

/-- C9: before the first send, `sign_tx` mutates the caller's header in
place — `network_passphrase`, `address_n` and `num_operations` are
overwritten, the latter with the length of the supplied operations list
whatever value was already there — every other header field is left
unchanged, and the very first message sent is that mutated header. -/
theorem sign_tx_header_mutation_frame {Op σ ε : Type}
    (device : Nat → Except ε (Response σ)) (tx : StellarSignTx)
    (operations : List Op) (address_n : List Nat)
    (network_passphrase : String) :
    (sign_tx device tx operations address_n network_passphrase).finalTx =
      applyHeaderFields tx address_n network_passphrase operations.length ∧
    (sign_tx device tx operations address_n
        network_passphrase).finalTx.network_passphrase =
      some network_passphrase ∧
    (sign_tx device tx operations address_n
        network_passphrase).finalTx.address_n = address_n ∧
    (sign_tx device tx operations address_n
        network_passphrase).finalTx.num_operations =
      some operations.length ∧
    (sign_tx device tx operations address_n
        network_passphrase).finalTx.source_account = tx.source_account ∧
    (sign_tx device tx operations address_n
        network_passphrase).finalTx.fee = tx.fee ∧
    (sign_tx device tx operations address_n
        network_passphrase).finalTx.sequence_number = tx.sequence_number ∧
    (sign_tx device tx operations address_n
        network_passphrase).finalTx.timebounds_start = tx.timebounds_start ∧
    (sign_tx device tx operations address_n
        network_passphrase).finalTx.timebounds_end = tx.timebounds_end ∧
    (sign_tx device tx operations address_n
        network_passphrase).finalTx.memo_type = tx.memo_type ∧
    (sign_tx device tx operations address_n
        network_passphrase).finalTx.memo_text = tx.memo_text ∧
    (sign_tx device tx operations address_n
        network_passphrase).finalTx.memo_id = tx.memo_id ∧
    (sign_tx device tx operations address_n
        network_passphrase).finalTx.memo_hash = tx.memo_hash ∧
    (sign_tx device tx operations address_n network_passphrase).sent.head? =
      some (SentMsg.header
        ((sign_tx device tx operations address_n
          network_passphrase).finalTx)) := by
  have hftx : (sign_tx device tx operations address_n
      network_passphrase).finalTx =
      applyHeaderFields tx address_n network_passphrase operations.length := by
    cases hdev : device 0 with
    | error e => simp [sign_tx, hdev]
    | ok r0 =>
      simp only [sign_tx, hdev]
      exact (finishRun_frame _ _).1
  have hhead : (sign_tx device tx operations address_n
      network_passphrase).sent.head? =
      some (SentMsg.header
        (applyHeaderFields tx address_n network_passphrase
          operations.length)) := by
    cases hdev : device 0 with
    | error e => simp [sign_tx, hdev]
    | ok r0 =>
      simp only [sign_tx, hdev]
      rw [(finishRun_frame _ _).2.2.1]
      obtain ⟨tail, ht⟩ := signLoop_sent_extends device operations r0
        [SentMsg.header
          (applyHeaderFields tx address_n network_passphrase
            operations.length)]
        1
      rw [ht]
      simp
  refine ⟨hftx, ?_, ?_, ?_, ?_, ?_, ?_, ?_, ?_, ?_, ?_, ?_, ?_, ?_⟩ <;>
    (rw [hftx]; first | rfl | exact hhead)

/-- C10: whenever `from_envelope` succeeds, the header and the operation
list it returns are mutually consistent: `num_operations` equals the length
of the returned list, which has exactly one element per envelope operation,
converted by `_read_operation` in the envelope's original order. -/
theorem from_envelope_consistent (to_xdr_amount : String → Int)
    (from_raw_price : String → Price) (envelope : TransactionEnvelope)
    (tx : StellarSignTx) (operations : List StellarOp)
    (h : from_envelope to_xdr_amount from_raw_price envelope =
      .ok (tx, operations)) :
    tx.num_operations = some operations.length ∧
    operations.length = envelope.transaction.operations.length ∧
    ∀ (i : Nat) (hi : i < envelope.transaction.operations.length)
      (hi' : i < operations.length),
      _read_operation to_xdr_amount from_raw_price
        (envelope.transaction.operations.get ⟨i, hi⟩) =
        .ok (operations.get ⟨i, hi'⟩) := by
  simp only [from_envelope] at h
  cases hmap : mapExcept (_read_operation to_xdr_amount from_raw_price)
      envelope.transaction.operations with
  | error e =>
    rw [hmap] at h
    simp at h
  | ok ops =>
    rw [hmap] at h
    simp only [Except.ok.injEq, Prod.mk.injEq] at h
    obtain ⟨htx, hops⟩ := h
    subst hops
    subst htx
    have hlen := mapExcept_ok_length _ _ _ hmap
    refine ⟨?_, hlen, ?_⟩
    · rw [hlen]
    · intro i hi hi'
      exact mapExcept_ok_get _ _ _ hmap i hi hi'

/-- C10 witness: `from_envelope` applied to the two-operation `wEnvelope`
returns `wTxExpected` and `wOpsExpected`, whose operation count and list
length agree with the envelope. -/
theorem from_envelope_consistent_witness :
    from_envelope (fun _ => 0) (fun _ => ⟨0, 1⟩) wEnvelope =
      .ok (wTxExpected, wOpsExpected) ∧
    wTxExpected.num_operations = some wOpsExpected.length ∧
    wOpsExpected.length = wEnvelope.transaction.operations.length :=
  let h := from_envelope_consistent (fun _ => 0) (fun _ => ⟨0, 1⟩) wEnvelope
    wTxExpected wOpsExpected rfl
  ⟨rfl, h.1, h.2.1⟩
